import Mathlib

/-!
Verification development for the bKash personal payment channel worker
(`src/worker/src`).  The TypeScript services are shallowly embedded:

* JS strings (TrxIDs) are lists of UTF-16 code units (`List Nat`); the case
  mapping of `String.prototype.toUpperCase` and the whitespace set of
  `String.prototype.trim` are modelled at ASCII granularity, which covers
  every reference the system handles (`TrxID` regex admits `[A-Z0-9]+`).
* Timestamps (ISO 8601 strings parsed through `new Date(...)`) are modelled
  by their millisecond epoch values, as `Int`.
* Opaque identifiers (ULIDs, phone numbers, item codes) are `Nat`.
* The D1 database is a `DBState` record of the two mutable tables; every
  stateful service function takes and returns the state explicitly, plus an
  explicit `now`/fresh-id argument for `new Date()` / `ulid()`.
* `JSON.parse` of the `offered_receivers` column is modelled by an
  `Option (List Nat)` field: `some l` is a TEXT value that parses to the
  array `l`, `none` a malformed value on which `JSON.parse` throws.
* Human-readable template strings (`message`, `failure_reason`, `notes`) are
  modelled by inductives that record the template and its interpolations.
* A thrown JS exception is the `.error` case of `Except Unit`; operations
  that mutate the store before an exception can escape return the partial
  state alongside the `Except`.
* The state also records, as instrumentation, the list of tracking ids for
  which `triggerFulfillment` (services/fulfillment.ts) is invoked; none of
  the embedded code paths invoke it, mirroring `services/verification.ts`,
  which neither imports nor calls the fulfillment service.
-/

/-- Status column of `tracking_table` (`types/database.ts`, `TrackingStatus`). -/
inductive TrackingStatus
  | pending
  | submitted_trx
  | verified
  | failed
  | expired
  | canceled
deriving DecidableEq, Repr

/-- Status field of `VerificationResult` (`services/verification.ts`). -/
inductive VStatus
  | verified
  | failed
  | pending
deriving DecidableEq, Repr

/-- Interpolated `failure_reason` strings of `services/verification.ts`,
one constructor per template literal, recording the interpolated values. -/
inductive FailureReason
  | trxIdMismatch (expected got : List Nat)
  | amountMismatch (expected got : Int)
  | receiverNotOffered (got : Nat) (offered : List Nat)
  | outsideTimeWindow (receivedAt earliest latest : Int)
  | duplicateTrxId (otherSession : Nat)
  | noTrackingSession (id : Nat)
  | trxIdNull
  | noTransactionYet (trxid : List Nat)
  | noTransactionWithId (id : Nat)
  | noPendingSessions (trxid : List Nat)
deriving DecidableEq, Repr

/-- Values written to `tracking_table.notes` by the verification service:
the literal string `"Verified successfully"` or a failure-reason string. -/
inductive Note
  | verifiedSuccessfully
  | failure (r : FailureReason)
deriving DecidableEq, Repr

/-- Row of `transactions_table` (`types/database.ts`, `Transaction`). -/
structure Transaction where
  id : Nat
  trxid : List Nat
  amount_cents : Int
  receiver_phone : Nat
  sender_phone : Option Nat
  received_at : Int
  created_at : Int
deriving DecidableEq, Repr

/-- Row of `tracking_table` (`types/database.ts`, `Tracking`).  The
customer-info / form-data JSON blobs are opaque to every claim and omitted. -/
structure Tracking where
  tracking_id : Nat
  item_code : Nat
  payment_amount_cents : Int
  offered_receivers : Option (List Nat)
  user_entered_trxid : Option (List Nat)
  ticket_choice : Nat
  status : TrackingStatus
  matched_transaction_id : Option Nat
  created_at : Int
  updated_at : Int
  expires_at : Int
  notes : Option Note
deriving DecidableEq, Repr

/-- The D1 database plus the fulfillment-invocation instrumentation. -/
structure DBState where
  tracking : List Tracking
  transactions : List Transaction
  fulfillmentCalls : List Nat
deriving DecidableEq, Repr

/-- ASCII model of the whitespace class removed by `String.prototype.trim`. -/
def jsIsWhitespaceCode (n : Nat) : Bool :=
  n == 9 || n == 10 || n == 11 || n == 12 || n == 13 || n == 32

/-- ASCII model of the per-code-unit case map of `String.prototype.toUpperCase`. -/
def jsToUpperCode (n : Nat) : Nat :=
  if 97 ≤ n ∧ n ≤ 122 then n - 32 else n

/-- Model of `String.prototype.trim`: drop whitespace from both ends. -/
def jsTrim (s : List Nat) : List Nat :=
  ((s.dropWhile jsIsWhitespaceCode).reverse.dropWhile jsIsWhitespaceCode).reverse

/-- `normalizeTrxID` (`services/smsParser.ts`): `trxid.trim().toUpperCase()`. -/
def normalizeTrxID (s : List Nat) : List Nat :=
  (jsTrim s).map jsToUpperCode

/-- JS truthiness of a nullable string column: `null` and `""` are falsy. -/
def optTruthy : Option (List Nat) → Bool
  | none => false
  | some s => !s.isEmpty

/-! ## Database service layer (`services/db.ts`) -/

/-- Input record of `TransactionsService.create`. -/
structure TransactionCreateData where
  trxid : List Nat
  amount_cents : Int
  receiver_phone : Nat
  sender_phone : Nat
  received_at : Int
deriving DecidableEq, Repr

/-- `TransactionsService.getByTrxID`: `SELECT * FROM transactions_table WHERE
trxid = ?` followed by `.first()`. -/
def transactionsGetByTrxID (st : DBState) (trxid : List Nat) : Option Transaction :=
  st.transactions.find? (fun t => t.trxid == trxid)

/-- `TransactionsService.getByID`. -/
def transactionsGetByID (st : DBState) (id : Nat) : Option Transaction :=
  st.transactions.find? (fun t => t.id == id)

/-- `TransactionsService.create`: tries to `INSERT`; the `UNIQUE` constraint
on `trxid` (migration `uq_trxid`) makes the insert throw when a row with the
same `trxid` exists, in which case the `catch` block fetches and returns the
existing row with `isNew = false`.  `id` models the `ulid()` call and `now`
the `new Date().toISOString()` for `created_at`. -/
def transactionsCreate (st : DBState) (data : TransactionCreateData) (id : Nat)
    (now : Int) : (Transaction × Bool) × DBState :=
  match transactionsGetByTrxID st data.trxid with
  | some existing => ((existing, false), st)
  | none =>
    let tx : Transaction :=
      { id := id
        trxid := data.trxid
        amount_cents := data.amount_cents
        receiver_phone := data.receiver_phone
        sender_phone := some data.sender_phone
        received_at := data.received_at
        created_at := now }
    ((tx, true), { st with transactions := st.transactions ++ [tx] })

/-- `TrackingService.getByID`. -/
def trackingGetByID (st : DBState) (tracking_id : Nat) : Option Tracking :=
  st.tracking.find? (fun t => t.tracking_id == tracking_id)

/-- `TrackingService.submitTrxID`: `UPDATE tracking_table SET
user_entered_trxid = ?, status = 'submitted_trx', updated_at = ? WHERE
tracking_id = ?`. -/
def trackingSubmitTrxID (st : DBState) (tracking_id : Nat) (trxid : List Nat)
    (now : Int) : DBState :=
  { st with tracking := st.tracking.map fun t =>
      if t.tracking_id == tracking_id then
        { t with user_entered_trxid := some trxid, status := .submitted_trx,
                 updated_at := now }
      else t }

/-- `TrackingService.updateStatus`: sets `status`, `updated_at`, and
overwrites `matched_transaction_id` and `notes` with the given options
(`options?.x || null`, so an absent option writes `NULL`). -/
def trackingUpdateStatus (st : DBState) (tracking_id : Nat)
    (status : TrackingStatus) (matched : Option Nat) (note : Option Note)
    (now : Int) : DBState :=
  { st with tracking := st.tracking.map fun t =>
      if t.tracking_id == tracking_id then
        { t with status := status, updated_at := now,
                 matched_transaction_id := matched, notes := note }
      else t }

/-- `TrackingService.findByTrxID`: `SELECT * FROM tracking_table WHERE
user_entered_trxid = ? AND status IN ('pending', 'submitted_trx')`. -/
def trackingFindByTrxID (st : DBState) (trxid : List Nat) : List Tracking :=
  st.tracking.filter fun t =>
    t.user_entered_trxid == some trxid &&
    (t.status == .pending || t.status == .submitted_trx)

/-- `TrackingService.findExpired`: sessions with status `pending` or
`submitted_trx` whose `expires_at` is strictly before `now`. -/
def trackingFindExpired (st : DBState) (now : Int) : List Tracking :=
  st.tracking.filter fun t =>
    (t.status == .pending || t.status == .submitted_trx) &&
    decide (t.expires_at < now)

/-- `TrackingService.findPendingVerification`: status `submitted_trx` and
`user_entered_trxid IS NOT NULL`. -/
def trackingFindPendingVerification (st : DBState) : List Tracking :=
  st.tracking.filter fun t =>
    t.status == .submitted_trx && t.user_entered_trxid.isSome

/-- `TrackingService.expireSessions`: batch `UPDATE ... SET status =
'expired', updated_at = ? WHERE tracking_id IN (...)`; no-op on `[]`. -/
def trackingExpireSessions (st : DBState) (tracking_ids : List Nat)
    (now : Int) : DBState :=
  if tracking_ids.isEmpty then st
  else
    { st with tracking := st.tracking.map fun t =>
        if tracking_ids.contains t.tracking_id then
          { t with status := .expired, updated_at := now }
        else t }

/-! ## Verification service (`services/verification.ts`) -/

/-- `VerificationResult` (`services/verification.ts`); the fixed `message`
string of each branch is determined by `status`/`failure_reason` and omitted. -/
structure VerificationResult where
  success : Bool
  status : VStatus
  matched_transaction_id : Option Nat := none
  failure_reason : Option FailureReason := none
deriving DecidableEq, Repr

/-- Rule 4 of `verifyPayment`: `receivedAt < created − 1 h || receivedAt >
expires + 15 min` (all in milliseconds, as produced by `Date.getTime()`). -/
def timeWindowFails (created expires receivedAt : Int) : Bool :=
  decide (receivedAt < created - 60 * 60 * 1000) ||
  decide (receivedAt > expires + 15 * 60 * 1000)

/-- `verifyPayment(tracking, transaction, db)`: the five verification rules,
evaluated in order with short-circuit on the first failure.  `JSON.parse` of
a malformed `offered_receivers` throws (`.error`).  Rule 5 reads the store
through `db.tracking.findByTrxID`. -/
def verifyPayment (tracking : Tracking) (transaction : Transaction)
    (st : DBState) : Except Unit VerificationResult :=
  let trackingTrxID := normalizeTrxID (tracking.user_entered_trxid.getD [])
  let transactionTrxID := normalizeTrxID transaction.trxid
  if trackingTrxID ≠ transactionTrxID then
    .ok { success := false, status := .failed,
          failure_reason := some (.trxIdMismatch trackingTrxID transactionTrxID) }
  else if tracking.payment_amount_cents ≠ transaction.amount_cents then
    .ok { success := false, status := .failed,
          failure_reason := some (.amountMismatch tracking.payment_amount_cents
            transaction.amount_cents) }
  else
    match tracking.offered_receivers with
    | none => .error ()
    | some offeredReceivers =>
      if ¬ offeredReceivers.contains transaction.receiver_phone then
        .ok { success := false, status := .failed,
              failure_reason := some (.receiverNotOffered
                transaction.receiver_phone offeredReceivers) }
      else if timeWindowFails tracking.created_at tracking.expires_at
          transaction.received_at then
        .ok { success := false, status := .failed,
              failure_reason := some (.outsideTimeWindow transaction.received_at
                (tracking.created_at - 60 * 60 * 1000)
                (tracking.expires_at + 15 * 60 * 1000)) }
      else
        match (trackingFindByTrxID st transactionTrxID).find? (fun t =>
            t.status == .verified && t.tracking_id != tracking.tracking_id) with
        | some alreadyMatched =>
          .ok { success := false, status := .failed,
                failure_reason := some (.duplicateTrxId alreadyMatched.tracking_id) }
        | none =>
          .ok { success := true, status := .verified,
                matched_transaction_id := some transaction.id }

/-- `attemptVerification(trackingId, db)`: loads the session, early-returns
on a missing session, a falsy `user_entered_trxid`, an already-`verified`
status, or a missing transaction; otherwise runs `verifyPayment` and applies
the verdict through `updateStatus`.  An exception escapes before any write,
so the returned state is the input state in the `.error` case. -/
def attemptVerification (st : DBState) (trackingId : Nat) (now : Int) :
    Except Unit VerificationResult × DBState :=
  match trackingGetByID st trackingId with
  | none =>
    (.ok { success := false, status := .failed,
           failure_reason := some (.noTrackingSession trackingId) }, st)
  | some tracking =>
    if optTruthy tracking.user_entered_trxid = false then
      (.ok { success := false, status := .pending,
             failure_reason := some .trxIdNull }, st)
    else if tracking.status = .verified then
      (.ok { success := true, status := .verified,
             matched_transaction_id := tracking.matched_transaction_id }, st)
    else
      let normalizedTrxID := normalizeTrxID (tracking.user_entered_trxid.getD [])
      match transactionsGetByTrxID st normalizedTrxID with
      | none =>
        (.ok { success := false, status := .pending,
               failure_reason := some (.noTransactionYet normalizedTrxID) }, st)
      | some transaction =>
        match verifyPayment tracking transaction st with
        | .error e => (.error e, st)
        | .ok result =>
          if result.success then
            (.ok result, trackingUpdateStatus st trackingId .verified
              result.matched_transaction_id (some .verifiedSuccessfully) now)
          else if result.status = .failed then
            (.ok result, trackingUpdateStatus st trackingId .failed none
              (result.failure_reason.map Note.failure) now)
          else
            (.ok result, st)

/-- The `for (const tracking of pendingSessions)` loop of
`verifyIncomingTransaction`: iterates over the snapshot list, re-reading the
(evolving) store inside `verifyPayment`; an exception escapes with the
partial state. -/
def viLoop (transaction : Transaction) (now : Int) :
    DBState → List VerificationResult → List Tracking →
    Except Unit (List VerificationResult) × DBState
  | st, results, [] => (.ok results, st)
  | st, results, tracking :: rest =>
    match verifyPayment tracking transaction st with
    | .error e => (.error e, st)
    | .ok result =>
      let st' :=
        if result.success then
          trackingUpdateStatus st tracking.tracking_id .verified
            result.matched_transaction_id (some .verifiedSuccessfully) now
        else if result.status = .failed then
          trackingUpdateStatus st tracking.tracking_id .failed none
            (result.failure_reason.map Note.failure) now
        else st
      viLoop transaction now st' (results ++ [result]) rest

/-- `verifyIncomingTransaction(transactionId, db)`: loads the transaction,
finds all pending sessions with the matching normalized TrxID, and attempts
verification for each. -/
def verifyIncomingTransaction (st : DBState) (transactionId : Nat)
    (now : Int) : Except Unit (List VerificationResult) × DBState :=
  match transactionsGetByID st transactionId with
  | none =>
    (.ok [{ success := false, status := .failed,
            failure_reason := some (.noTransactionWithId transactionId) }], st)
  | some transaction =>
    let normalizedTrxID := normalizeTrxID transaction.trxid
    let pendingSessions := trackingFindByTrxID st normalizedTrxID
    if pendingSessions.isEmpty then
      (.ok [{ success := false, status := .pending,
              failure_reason := some (.noPendingSessions normalizedTrxID) }], st)
    else
      viLoop transaction now st [] pendingSessions

/-! ## Submit-TrxID route (`routes/submitTrx.ts`, handler `submitTrxID`) -/

/-- Outcome of the submit-trx HTTP handler, one constructor per response
branch; `serverError` is the handler's top-level `catch`. -/
inductive SubmitOutcome
  | invalidTrxId
  | sessionNotFound
  | sessionExpired
  | alreadyVerified
  | alreadySubmitted
  | verifiedNow
  | submittedOk
  | serverError
deriving DecidableEq, Repr

/-- `submitTrxID(c)` after body parsing: normalizes the TrxID, rejects an
empty normalization, loads the session, guards on expiry (`now >
expires_at`), on an already-`verified` status, and on a truthy
`user_entered_trxid` with status `submitted_trx`; otherwise writes the
normalized TrxID via `tracking.submitTrxID` and immediately calls
`attemptVerification`.  The top-level `catch` turns an escaped exception
into a 500 response; by then the `submitTrxID` write has already happened. -/
def submitTrxHandler (st : DBState) (tracking_id : Nat) (trxid : List Nat)
    (now : Int) : SubmitOutcome × DBState :=
  let normalizedTrxID := normalizeTrxID trxid
  if normalizedTrxID.isEmpty then (.invalidTrxId, st)
  else
    match trackingGetByID st tracking_id with
    | none => (.sessionNotFound, st)
    | some tracking =>
      if now > tracking.expires_at then (.sessionExpired, st)
      else if tracking.status = .verified then (.alreadyVerified, st)
      else if optTruthy tracking.user_entered_trxid = true ∧
          tracking.status = .submitted_trx then
        (.alreadySubmitted, st)
      else
        let st1 := trackingSubmitTrxID st tracking_id normalizedTrxID now
        match attemptVerification st1 tracking_id now with
        | (.ok result, st2) =>
          (if result.success then .verifiedNow else .submittedOk, st2)
        | (.error _, st2) => (.serverError, st2)

/-! ## Scheduled verification sweep (`scheduled/cron.ts`, `scheduledHandler`) -/

/-- The three counters of the sweep's retry phase. -/
structure SweepCounts where
  verified : Nat
  failed : Nat
  stillPending : Nat
deriving DecidableEq, Repr

/-- The summary logged at the end of a sweep. -/
structure SweepReport where
  expired : Nat
  verified : Nat
  failed : Nat
  still_pending : Nat
  total_processed : Nat
deriving DecidableEq, Repr

/-- The `for (const session of pendingSessions)` loop of the sweep's retry
phase: each `attemptVerification` call sits in its own `try/catch`, so an
exception on one session is counted as a failure and the loop continues with
the remaining sessions. -/
def retryLoop (now : Int) :
    DBState → SweepCounts → List Tracking → SweepCounts × DBState
  | st, counts, [] => (counts, st)
  | st, counts, session :: rest =>
    match attemptVerification st session.tracking_id now with
    | (.ok result, st') =>
      if result.success then
        retryLoop now st' { counts with verified := counts.verified + 1 } rest
      else if result.status = .failed then
        retryLoop now st' { counts with failed := counts.failed + 1 } rest
      else
        retryLoop now st' { counts with stillPending := counts.stillPending + 1 } rest
    | (.error _, st') =>
      retryLoop now st' { counts with failed := counts.failed + 1 } rest

/-- `scheduledHandler(event, env)`: phase 1 expires old sessions in one batch
update; phase 2 retries verification for every submitted session through
`retryLoop`. -/
def scheduledHandler (st : DBState) (now : Int) : SweepReport × DBState :=
  let expiredSessions := trackingFindExpired st now
  let st1 :=
    if expiredSessions.isEmpty then st
    else trackingExpireSessions st (expiredSessions.map (·.tracking_id)) now
  let pendingSessions := trackingFindPendingVerification st1
  let (counts, st2) := retryLoop now st1 ⟨0, 0, 0⟩ pendingSessions
  ({ expired := expiredSessions.length
     verified := counts.verified
     failed := counts.failed
     still_pending := counts.stillPending
     total_processed := pendingSessions.length }, st2)

/-! ## Derived notions and concrete fixtures -/

deriving instance DecidableEq for Except

/-- The status column of the row a `tracking.getByID` lookup returns. -/
def statusOf (st : DBState) (tracking_id : Nat) : Option TrackingStatus :=
  (trackingGetByID st tracking_id).map (·.status)

/-- The `tracking_id` column is `PRIMARY KEY` in migration 0003. -/
def idsNodup (st : DBState) : Prop :=
  (st.tracking.map (·.tracking_id)).Nodup

instance : DecidablePred idsNodup := fun st => by unfold idsNodup; infer_instance

/-- Rule 1 of `verifyPayment` as a proposition: normalized references equal. -/
def ruleTrxIdOk (tracking : Tracking) (transaction : Transaction) : Prop :=
  normalizeTrxID (tracking.user_entered_trxid.getD []) =
    normalizeTrxID transaction.trxid

/-- Rule 2 of `verifyPayment`: strict equality of amounts in cents. -/
def ruleAmountOk (tracking : Tracking) (transaction : Transaction) : Prop :=
  tracking.payment_amount_cents = transaction.amount_cents

/-- Rule 5 of `verifyPayment`: the store lookup for a *different* session
already `verified` with the same TrxID, exactly as coded (over
`tracking.findByTrxID`, which itself filters to `pending`/`submitted_trx`). -/
def ruleExclusivityHit (st : DBState) (tracking : Tracking)
    (transaction : Transaction) : Option Tracking :=
  (trackingFindByTrxID st (normalizeTrxID transaction.trxid)).find? fun t =>
    t.status == .verified && t.tracking_id != tracking.tracking_id

/-- Fixture: a submitted session declaring TrxID `"AB"`, amount 50000 cents,
receiver 17 offered, created at epoch 0, expiring at +1 h. -/
def session1 : Tracking :=
  { tracking_id := 1, item_code := 0, payment_amount_cents := 50000,
    offered_receivers := some [17], user_entered_trxid := some [65, 66],
    ticket_choice := 0, status := .submitted_trx, matched_transaction_id := none,
    created_at := 0, updated_at := 0, expires_at := 3600000, notes := none }

/-- Fixture: a second, distinct session declaring the same reference. -/
def session2 : Tracking := { session1 with tracking_id := 2 }

/-- Fixture: the single receipt matching both sessions on reference, amount,
receiver and time window. -/
def receipt1 : Transaction :=
  { id := 100, trxid := [65, 66], amount_cents := 50000, receiver_phone := 17,
    sender_phone := some 5, received_at := 1000, created_at := 1000 }

/-- Fixture: store holding the two same-reference sessions and one receipt. -/
def dupState : DBState :=
  { tracking := [session1, session2], transactions := [receipt1],
    fulfillmentCalls := [] }

/-- Fixture: an already-verified session (resolved against `receipt1`). -/
def verifiedSession : Tracking :=
  { session1 with
    status := .verified
    matched_transaction_id := some 100
    notes := some .verifiedSuccessfully }

/-- Fixture: store holding only the verified session and no receipt. -/
def verifiedState : DBState :=
  { tracking := [verifiedSession], transactions := [], fulfillmentCalls := [] }

/-- Fixture: a session that failed verification (amount mismatch) well
before its expiry time. -/
def failedSession : Tracking :=
  { session1 with
    status := .failed
    notes := some (.failure (.amountMismatch 50000 60000)) }

/-- Fixture: store holding only the unexpired failed session. -/
def failedState : DBState :=
  { tracking := [failedSession], transactions := [], fulfillmentCalls := [] }

/-- Fixture: store with one submitted session and no receipt at all. -/
def noReceiptState : DBState :=
  { tracking := [session1], transactions := [], fulfillmentCalls := [] }

/-- Fixture: an empty store. -/
def emptyState : DBState :=
  { tracking := [], transactions := [], fulfillmentCalls := [] }

/-- Fixture: ingestion data matching `receipt1`'s fields. -/
def sampleCreateData : TransactionCreateData :=
  { trxid := [65, 66], amount_cents := 50000, receiver_phone := 17,
    sender_phone := 15, received_at := 1000 }

/-- Fixture: a session whose `offered_receivers` TEXT is malformed, so
`JSON.parse` inside `verifyPayment` throws. -/
def badJsonSession : Tracking := { session1 with offered_receivers := none }

/-- Fixture: store where verifying `badJsonSession` throws while `session2`
is still verifiable against `receipt1`. -/
def badJsonState : DBState :=
  { tracking := [badJsonSession, session2], transactions := [receipt1],
    fulfillmentCalls := [] }

/-! ## Helper lemmas -/

theorem fc_updateStatus (st : DBState) (tid : Nat) (s : TrackingStatus)
    (m : Option Nat) (n : Option Note) (now : Int) :
    (trackingUpdateStatus st tid s m n now).fulfillmentCalls =
      st.fulfillmentCalls := rfl

theorem fc_submitTrxID (st : DBState) (tid : Nat) (trx : List Nat) (now : Int) :
    (trackingSubmitTrxID st tid trx now).fulfillmentCalls =
      st.fulfillmentCalls := rfl

theorem fc_expireSessions (st : DBState) (ids : List Nat) (now : Int) :
    (trackingExpireSessions st ids now).fulfillmentCalls =
      st.fulfillmentCalls := by
  unfold trackingExpireSessions; split <;> rfl

theorem fc_attemptVerification (st : DBState) (tid : Nat) (now : Int) :
    ((attemptVerification st tid now).2).fulfillmentCalls =
      st.fulfillmentCalls := by
  unfold attemptVerification
  dsimp only
  split
  · rfl
  · split
    · rfl
    · split
      · rfl
      · split
        · rfl
        · split
          · rfl
          · split
            · exact fc_updateStatus ..
            · split
              · exact fc_updateStatus ..
              · rfl

theorem fc_viLoop (tx : Transaction) (now : Int) (sessions : List Tracking) :
    ∀ (st : DBState) (acc : List VerificationResult),
      ((viLoop tx now st acc sessions).2).fulfillmentCalls =
        st.fulfillmentCalls := by
  induction sessions with
  | nil => intro st acc; rfl
  | cons s rest ih =>
    intro st acc
    unfold viLoop
    split
    · rfl
    · next r _ =>
      split
      · rw [ih]; exact fc_updateStatus ..
      · split
        · rw [ih]; exact fc_updateStatus ..
        · exact ih ..

theorem fc_verifyIncomingTransaction (st : DBState) (txid : Nat) (now : Int) :
    ((verifyIncomingTransaction st txid now).2).fulfillmentCalls =
      st.fulfillmentCalls := by
  unfold verifyIncomingTransaction
  dsimp only
  split
  · rfl
  · split
    · rfl
    · exact fc_viLoop ..

theorem fc_submitTrxHandler (st : DBState) (tid : Nat) (trx : List Nat)
    (now : Int) :
    ((submitTrxHandler st tid trx now).2).fulfillmentCalls =
      st.fulfillmentCalls := by
  unfold submitTrxHandler
  dsimp only
  split
  · rfl
  · split
    · rfl
    · split
      · rfl
      · split
        · rfl
        · split
          · rfl
          · split <;>
            · next heq =>
              have h1 := fc_attemptVerification
                (trackingSubmitTrxID st tid (normalizeTrxID trx) now) tid now
              rw [heq] at h1
              simpa [fc_submitTrxID] using h1

theorem fc_retryLoop (now : Int) (sessions : List Tracking) :
    ∀ (st : DBState) (c : SweepCounts),
      ((retryLoop now st c sessions).2).fulfillmentCalls =
        st.fulfillmentCalls := by
  induction sessions with
  | nil => intro st c; rfl
  | cons s rest ih =>
    intro st c
    unfold retryLoop
    split <;> rename_i heq
    · split
      · rw [ih]
        have := fc_attemptVerification st s.tracking_id now
        rw [heq] at this; exact this
      · split <;>
        · rw [ih]
          have := fc_attemptVerification st s.tracking_id now
          rw [heq] at this; exact this
    · rw [ih]
      have := fc_attemptVerification st s.tracking_id now
      rw [heq] at this; exact this

theorem fc_scheduledHandler (st : DBState) (now : Int) :
    ((scheduledHandler st now).2).fulfillmentCalls = st.fulfillmentCalls := by
  unfold scheduledHandler
  rw [fc_retryLoop]
  split <;> simp [fc_expireSessions]

/-! ## Claim theorems -/

/-- C1: two distinct sessions (`session1`, `session2`) declare the same
normalized reference, and a single receipt (`receipt1`) matches both on
amount, receiver and time window.  After both resolution paths run —
`attemptVerification` for session 1, then `verifyIncomingTransaction` for
the receipt — *both* sessions have status `verified` (each with the
"Verified successfully" note), contradicting the claimed exclusivity:
rule 5 of `verifyPayment` looks for a `verified` session among the rows
returned by `tracking.findByTrxID`, but that query filters to statuses
`pending`/`submitted_trx`, so the duplicate check can never fire. -/
theorem c1_duplicate_reference_both_verified :
    statusOf (attemptVerification dupState 1 2000).2 1 = some .verified ∧
    statusOf (verifyIncomingTransaction
      (attemptVerification dupState 1 2000).2 100 2500).2 1 = some .verified ∧
    statusOf (verifyIncomingTransaction
      (attemptVerification dupState 1 2000).2 100 2500).2 2 = some .verified ∧
    (trackingGetByID (verifyIncomingTransaction
      (attemptVerification dupState 1 2000).2 100 2500).2 2).map (·.notes) =
      some (some .verifiedSuccessfully) := by
  decide

/-- C2: no operation of the embedded system ever invokes
`triggerFulfillment` — the fulfillment-call log is invariant under
`attemptVerification`, `verifyIncomingTransaction`, the submit-trx handler
and the scheduled sweep — even on a run (`dupState`, session 1) in which a
session transitions from `submitted_trx` into `verified`.  The claimed
"exactly once per transition into verified" is therefore violated (zero
invocations): `services/verification.ts` neither imports nor calls
`services/fulfillment.ts`. -/
theorem c2_verified_transition_triggers_no_fulfillment :
    (∀ (st : DBState) (tid : Nat) (now : Int),
      ((attemptVerification st tid now).2).fulfillmentCalls =
        st.fulfillmentCalls) ∧
    (∀ (st : DBState) (txid : Nat) (now : Int),
      ((verifyIncomingTransaction st txid now).2).fulfillmentCalls =
        st.fulfillmentCalls) ∧
    (∀ (st : DBState) (tid : Nat) (trx : List Nat) (now : Int),
      ((submitTrxHandler st tid trx now).2).fulfillmentCalls =
        st.fulfillmentCalls) ∧
    (∀ (st : DBState) (now : Int),
      ((scheduledHandler st now).2).fulfillmentCalls = st.fulfillmentCalls) ∧
    statusOf dupState 1 = some .submitted_trx ∧
    statusOf (attemptVerification dupState 1 2000).2 1 = some .verified ∧
    ((attemptVerification dupState 1 2000).2).fulfillmentCalls = [] := by
  refine ⟨fun st tid now => fc_attemptVerification st tid now,
    fun st txid now => fc_verifyIncomingTransaction st txid now,
    fun st tid trx now => fc_submitTrxHandler st tid trx now,
    fun st now => fc_scheduledHandler st now, by decide, by decide, by decide⟩

theorem getByID_map_write (st : DBState) (tid : Nat) (f : Tracking → Tracking)
    (hf : ∀ t, (f t).tracking_id = t.tracking_id) :
    trackingGetByID { st with tracking := st.tracking.map f } tid =
      (trackingGetByID st tid).map f := by
  unfold trackingGetByID
  rw [List.find?_map]
  have hpq : ((fun t => t.tracking_id == tid) ∘ f) =
      (fun t : Tracking => t.tracking_id == tid) := by
    funext t; simp [Function.comp, hf]
  rw [hpq]

theorem getByID_eq_some (st : DBState) (tid : Nat) (tr : Tracking)
    (h : trackingGetByID st tid = some tr) :
    tr ∈ st.tracking ∧ tr.tracking_id = tid := by
  refine ⟨List.mem_of_find?_eq_some h, ?_⟩
  have := List.find?_some h
  simpa using this

theorem getByID_updateStatus_ne (st : DBState) (tid tid2 : Nat)
    (s : TrackingStatus) (m : Option Nat) (n : Option Note) (now : Int)
    (h : tid ≠ tid2) :
    trackingGetByID (trackingUpdateStatus st tid2 s m n now) tid =
      trackingGetByID st tid := by
  unfold trackingUpdateStatus
  rw [getByID_map_write]
  · cases hfind : trackingGetByID st tid with
    | none => rfl
    | some r =>
      have hr := (getByID_eq_some st tid r hfind).2
      have hcond : (r.tracking_id == tid2) = false := by
        simp [hr]; exact h
      simp [hcond]
      intro h2; rw [hr] at h2; exact absurd h2 h
  · intro t; split <;> rfl

theorem getByID_submitTrxID_ne (st : DBState) (tid tid2 : Nat)
    (trx : List Nat) (now : Int) (h : tid ≠ tid2) :
    trackingGetByID (trackingSubmitTrxID st tid2 trx now) tid =
      trackingGetByID st tid := by
  unfold trackingSubmitTrxID
  rw [getByID_map_write]
  · cases hfind : trackingGetByID st tid with
    | none => rfl
    | some r =>
      have hr := (getByID_eq_some st tid r hfind).2
      have hcond : (r.tracking_id == tid2) = false := by
        simp [hr]; exact h
      simp [hcond]
      intro h2; rw [hr] at h2; exact absurd h2 h
  · intro t; split <;> rfl

theorem getByID_expireSessions_notMem (st : DBState) (tid : Nat)
    (ids : List Nat) (now : Int) (h : ¬ tid ∈ ids) :
    trackingGetByID (trackingExpireSessions st ids now) tid =
      trackingGetByID st tid := by
  unfold trackingExpireSessions
  split
  · rfl
  · rw [getByID_map_write]
    · cases hfind : trackingGetByID st tid with
      | none => rfl
      | some r =>
        have hr := (getByID_eq_some st tid r hfind).2
        have hcond : ids.contains r.tracking_id = false := by
          simp [hr]; exact h
        simp [hcond]
        intro h2; rw [hr] at h2; exact absurd h2 h
    · intro t; split <;> rfl

theorem av_state_eq_of_verified (st : DBState) (tid : Nat) (now : Int)
    (tr : Tracking) (h : trackingGetByID st tid = some tr)
    (hv : tr.status = .verified) :
    (attemptVerification st tid now).2 = st := by
  unfold attemptVerification
  simp only [h]
  rw [if_pos hv]
  split <;> rfl

theorem av_result_of_verified (st : DBState) (tid : Nat) (now : Int)
    (tr : Tracking) (h : trackingGetByID st tid = some tr)
    (hv : tr.status = .verified)
    (ht : optTruthy tr.user_entered_trxid = true) :
    (attemptVerification st tid now).1 =
      .ok { success := true, status := .verified,
            matched_transaction_id := tr.matched_transaction_id } := by
  unfold attemptVerification
  simp only [h]
  rw [if_neg (by simp [ht]), if_pos hv]

theorem getByID_attempt_ne (st : DBState) (tid tid2 : Nat) (now : Int)
    (h : tid ≠ tid2) :
    trackingGetByID ((attemptVerification st tid2 now).2) tid =
      trackingGetByID st tid := by
  unfold attemptVerification
  dsimp only
  split
  · rfl
  · split
    · rfl
    · split
      · rfl
      · split
        · rfl
        · split
          · rfl
          · split
            · exact getByID_updateStatus_ne st tid tid2 _ _ _ now h
            · split
              · exact getByID_updateStatus_ne st tid tid2 _ _ _ now h
              · rfl

theorem getByID_viLoop (tx : Transaction) (now : Int) (tid : Nat) :
    ∀ (sessions : List Tracking) (st : DBState)
      (acc : List VerificationResult),
      (∀ s ∈ sessions, s.tracking_id ≠ tid) →
      trackingGetByID ((viLoop tx now st acc sessions).2) tid =
        trackingGetByID st tid := by
  intro sessions
  induction sessions with
  | nil => intro st acc _; rfl
  | cons s rest ih =>
    intro st acc hs
    have hne : tid ≠ s.tracking_id :=
      Ne.symm (hs s (List.mem_cons_self s rest))
    unfold viLoop
    split
    · rfl
    · dsimp only
      rw [ih _ _ (fun u hu => hs u (List.mem_cons_of_mem s hu))]
      split
      · exact getByID_updateStatus_ne st tid s.tracking_id _ _ _ now hne
      · split
        · exact getByID_updateStatus_ne st tid s.tracking_id _ _ _ now hne
        · rfl

theorem eq_of_mem_getByID (st : DBState) (tid : Nat) (tr s : Tracking)
    (hnodup : idsNodup st) (h : trackingGetByID st tid = some tr)
    (hs : s ∈ st.tracking) (hid : s.tracking_id = tid) : s = tr := by
  have htr := getByID_eq_some st tid tr h
  exact List.inj_on_of_nodup_map hnodup hs htr.1 (by rw [hid, htr.2])

theorem getByID_verifyIncoming_terminal (st : DBState) (tid txid : Nat)
    (now : Int) (tr : Tracking) (hnodup : idsNodup st)
    (h : trackingGetByID st tid = some tr)
    (hterm : tr.status ≠ .pending ∧ tr.status ≠ .submitted_trx) :
    trackingGetByID ((verifyIncomingTransaction st txid now).2) tid =
      some tr := by
  unfold verifyIncomingTransaction
  dsimp only
  split
  · exact h
  · split
    · exact h
    · rw [getByID_viLoop]
      · exact h
      · intro s hmem heq
        unfold trackingFindByTrxID at hmem
        rw [List.mem_filter] at hmem
        obtain ⟨hsmem, hpred⟩ := hmem
        have hs_eq : s = tr := eq_of_mem_getByID st tid tr s hnodup h hsmem heq
        simp only [Bool.and_eq_true, Bool.or_eq_true, beq_iff_eq] at hpred
        rcases hpred.2 with h1 | h1 <;> rw [hs_eq] at h1
        · exact hterm.1 h1
        · exact hterm.2 h1

theorem ids_map_write (l : List Tracking) (f : Tracking → Tracking)
    (hf : ∀ t, (f t).tracking_id = t.tracking_id) :
    (l.map f).map (·.tracking_id) = l.map (·.tracking_id) := by
  rw [List.map_map]
  exact List.map_congr_left (fun a _ => hf a)

theorem ids_expireSessions (st : DBState) (ids : List Nat) (now : Int) :
    ((trackingExpireSessions st ids now).tracking.map (·.tracking_id)) =
      st.tracking.map (·.tracking_id) := by
  unfold trackingExpireSessions
  split
  · rfl
  · exact ids_map_write st.tracking _ (fun t => by split <;> rfl)

theorem getByID_retryLoop (now : Int) (tid : Nat) :
    ∀ (sessions : List Tracking) (st : DBState) (c : SweepCounts),
      (∀ s ∈ sessions, s.tracking_id ≠ tid) →
      trackingGetByID ((retryLoop now st c sessions).2) tid =
        trackingGetByID st tid := by
  intro sessions
  induction sessions with
  | nil => intro st c _; rfl
  | cons s rest ih =>
    intro st c hs
    have hne : tid ≠ s.tracking_id :=
      Ne.symm (hs s (List.mem_cons_self s rest))
    have hrest : ∀ u ∈ rest, u.tracking_id ≠ tid :=
      fun u hu => hs u (List.mem_cons_of_mem s hu)
    unfold retryLoop
    split <;> rename_i st' heq
    · have hst' : st' = (attemptVerification st s.tracking_id now).2 :=
        congrArg Prod.snd heq.symm
      split
      · rw [ih _ _ hrest, hst', getByID_attempt_ne st tid s.tracking_id now hne]
      · split <;>
          rw [ih _ _ hrest, hst', getByID_attempt_ne st tid s.tracking_id now hne]
    · have hst' : st' = (attemptVerification st s.tracking_id now).2 :=
        congrArg Prod.snd heq.symm
      rw [ih _ _ hrest, hst', getByID_attempt_ne st tid s.tracking_id now hne]

theorem getByID_scheduledHandler_terminal (st : DBState) (tid : Nat)
    (now : Int) (tr : Tracking) (hnodup : idsNodup st)
    (h : trackingGetByID st tid = some tr)
    (hterm : tr.status ≠ .pending ∧ tr.status ≠ .submitted_trx) :
    trackingGetByID ((scheduledHandler st now).2) tid = some tr := by
  unfold scheduledHandler
  dsimp only
  have hnotmem : ¬ tid ∈ (trackingFindExpired st now).map (·.tracking_id) := by
    intro hmem
    rw [List.mem_map] at hmem
    obtain ⟨s, hsmem, hsid⟩ := hmem
    unfold trackingFindExpired at hsmem
    rw [List.mem_filter] at hsmem
    obtain ⟨hsmem, hpred⟩ := hsmem
    have hs_eq : s = tr := eq_of_mem_getByID st tid tr s hnodup h hsmem hsid
    simp only [Bool.and_eq_true, Bool.or_eq_true, beq_iff_eq] at hpred
    rcases hpred.1 with h1 | h1 <;> rw [hs_eq] at h1
    · exact hterm.1 h1
    · exact hterm.2 h1
  set st1 :=
    if (trackingFindExpired st now).isEmpty then st
    else trackingExpireSessions st ((trackingFindExpired st now).map (·.tracking_id)) now with hst1
  have h1 : trackingGetByID st1 tid = some tr := by
    rw [hst1]; split
    · exact h
    · rw [getByID_expireSessions_notMem st tid _ now hnotmem]; exact h
  have hnodup1 : idsNodup st1 := by
    rw [hst1]; split
    · exact hnodup
    · unfold idsNodup
      rw [ids_expireSessions]
      exact hnodup
  rw [getByID_retryLoop]
  · exact h1
  · intro s hsmem heq
    unfold trackingFindPendingVerification at hsmem
    rw [List.mem_filter] at hsmem
    obtain ⟨hsmem, hpred⟩ := hsmem
    have hs_eq : s = tr := eq_of_mem_getByID st1 tid tr s hnodup1 h1 hsmem heq
    simp only [Bool.and_eq_true, beq_iff_eq] at hpred
    rw [hs_eq] at hpred
    exact hterm.2 hpred.1

theorem getByID_submitHandler_verified (st : DBState) (tid : Nat)
    (tr : Tracking) (h : trackingGetByID st tid = some tr)
    (hv : tr.status = .verified) (tid2 : Nat) (trx : List Nat) (now : Int) :
    trackingGetByID ((submitTrxHandler st tid2 trx now).2) tid = some tr := by
  by_cases he : tid2 = tid
  · subst he
    unfold submitTrxHandler
    dsimp only
    split
    · exact h
    · simp only [h]
      split
      · exact h
      · exact h
  · have hne : tid ≠ tid2 := fun e => he e.symm
    unfold submitTrxHandler
    dsimp only
    split
    · exact h
    · split
      · exact h
      · split
        · exact h
        · split
          · exact h
          · split
            · exact h
            · split <;> rename_i st2 heq <;>
              · have hst2 :
                    st2 = (attemptVerification
                      (trackingSubmitTrxID st tid2 (normalizeTrxID trx) now)
                      tid2 now).2 :=
                  congrArg Prod.snd heq.symm
                rw [hst2, getByID_attempt_ne _ tid tid2 now hne,
                  getByID_submitTrxID_ne st tid tid2 _ now hne]
                exact h

/-- C3 counterexample: a session that `failed` (amount mismatch) well before
its expiry is *re-opened* by the submit-trx handler — a fresh submission at
`now = 1000` (before `expires_at = 3600000`) passes every guard (not
expired, not `verified`, not `submitted_trx`) and `tracking.submitTrxID`
writes status `submitted_trx`.  So `failed` is not terminal, contradicting
the claim as stated. -/
theorem c3_failed_session_reopened_counterexample :
    statusOf failedState 1 = some .failed ∧
    (submitTrxHandler failedState 1 [67, 68] 1000).1 = .submittedOk ∧
    statusOf (submitTrxHandler failedState 1 [67, 68] 1000).2 1 =
      some .submitted_trx := by
  decide

/-- C3 amended: under the four listed operations only `verified` is fully
terminal: a `verified` session's row survives the submit-trx handler and
`attemptVerification` (with any target) unchanged, and every status among
`verified`/`failed`/`expired`/`canceled` survives `verifyIncomingTransaction`
and the scheduled sweep unchanged.  (`failed`, `expired` and `canceled`
sessions are *not* protected from the submit-trx handler, which re-opens an
unexpired one to `submitted_trx`, nor from a direct `attemptVerification`,
which re-evaluates them.) -/
theorem c3_terminal_statuses_amended (st : DBState) (tid : Nat)
    (tr : Tracking) (hnodup : idsNodup st)
    (h : trackingGetByID st tid = some tr) :
    (tr.status = .verified →
      (∀ (tid2 : Nat) (trx : List Nat) (now : Int),
        trackingGetByID ((submitTrxHandler st tid2 trx now).2) tid = some tr) ∧
      (∀ (tid2 : Nat) (now : Int),
        trackingGetByID ((attemptVerification st tid2 now).2) tid = some tr)) ∧
    ((tr.status = .verified ∨ tr.status = .failed ∨ tr.status = .expired ∨
        tr.status = .canceled) →
      (∀ (txid : Nat) (now : Int),
        trackingGetByID ((verifyIncomingTransaction st txid now).2) tid =
          some tr) ∧
      (∀ now : Int,
        trackingGetByID ((scheduledHandler st now).2) tid = some tr)) := by
  constructor
  · intro hv
    refine ⟨fun tid2 trx now =>
      getByID_submitHandler_verified st tid tr h hv tid2 trx now,
      fun tid2 now => ?_⟩
    by_cases he : tid2 = tid
    · subst he
      rw [av_state_eq_of_verified st tid2 now tr h hv]
      exact h
    · rw [getByID_attempt_ne st tid tid2 now (fun e => he e.symm)]
      exact h
  · intro hterm
    have hterm' : tr.status ≠ .pending ∧ tr.status ≠ .submitted_trx := by
      rcases hterm with h1 | h1 | h1 | h1 <;> rw [h1] <;>
        exact ⟨by decide, by decide⟩
    exact ⟨fun txid now =>
      getByID_verifyIncoming_terminal st tid txid now tr hnodup h hterm',
      fun now =>
      getByID_scheduledHandler_terminal st tid now tr hnodup h hterm'⟩

/-- C3 witness: the amended theorem applied to the concrete store holding
one verified session, for a concrete resubmission and a concrete sweep. -/
theorem c3_terminal_statuses_amended_witness :
    idsNodup verifiedState ∧
    trackingGetByID verifiedState 1 = some verifiedSession ∧
    verifiedSession.status = .verified ∧
    trackingGetByID ((submitTrxHandler verifiedState 1 [67, 68] 10).2) 1 =
      some verifiedSession ∧
    trackingGetByID ((scheduledHandler verifiedState 10).2) 1 =
      some verifiedSession :=
  ⟨by decide, by decide, by decide,
    ((c3_terminal_statuses_amended verifiedState 1 verifiedSession (by decide)
      (by decide)).1 (by decide)).1 1 [67, 68] 10,
    ((c3_terminal_statuses_amended verifiedState 1 verifiedSession (by decide)
      (by decide)).2 (Or.inl (by decide))).2 10⟩

/-- C4: for a session whose status is already `verified`, re-invoking
`attemptVerification` on it leaves the store exactly unchanged and
early-returns the stored result (`success`, prior
`matched_transaction_id`) without re-running `verifyPayment`, and
`verifyIncomingTransaction` for any receipt leaves the session's whole row
(status, `matched_transaction_id`, `notes`) unchanged, because
`tracking.findByTrxID` only selects `pending`/`submitted_trx` rows; no
fulfillment invocation happens on either path. -/
theorem c4_verified_session_noop (st : DBState) (tid txid : Nat) (now : Int)
    (tr : Tracking) (hnodup : idsNodup st)
    (h : trackingGetByID st tid = some tr) (hv : tr.status = .verified) :
    (attemptVerification st tid now).2 = st ∧
    (optTruthy tr.user_entered_trxid = true →
      (attemptVerification st tid now).1 =
        .ok { success := true, status := .verified,
              matched_transaction_id := tr.matched_transaction_id }) ∧
    trackingGetByID ((verifyIncomingTransaction st txid now).2) tid =
      some tr ∧
    ((verifyIncomingTransaction st txid now).2).fulfillmentCalls =
      st.fulfillmentCalls := by
  have hterm : tr.status ≠ .pending ∧ tr.status ≠ .submitted_trx := by
    rw [hv]; exact ⟨by decide, by decide⟩
  exact ⟨av_state_eq_of_verified st tid now tr h hv,
    fun ht => av_result_of_verified st tid now tr h hv ht,
    getByID_verifyIncoming_terminal st tid txid now tr hnodup h hterm,
    fc_verifyIncomingTransaction st txid now⟩

/-- C4 witness: the no-op theorem applied to the concrete verified store. -/
theorem c4_verified_session_noop_witness :
    idsNodup verifiedState ∧
    trackingGetByID verifiedState 1 = some verifiedSession ∧
    verifiedSession.status = .verified ∧
    optTruthy verifiedSession.user_entered_trxid = true ∧
    (attemptVerification verifiedState 1 7).2 = verifiedState ∧
    (attemptVerification verifiedState 1 7).1 =
      .ok { success := true, status := .verified,
            matched_transaction_id := some 100 } :=
  ⟨by decide, by decide, by decide, by decide,
    (c4_verified_session_noop verifiedState 1 100 7 verifiedSession
      (by decide) (by decide) (by decide)).1,
    (c4_verified_session_noop verifiedState 1 100 7 verifiedSession
      (by decide) (by decide) (by decide)).2.1 (by decide)⟩

theorem vp_trxid_mismatch (tracking : Tracking) (transaction : Transaction)
    (st : DBState) (h1 : ¬ ruleTrxIdOk tracking transaction) :
    verifyPayment tracking transaction st =
      .ok { success := false, status := .failed,
            failure_reason := some (.trxIdMismatch
              (normalizeTrxID (tracking.user_entered_trxid.getD []))
              (normalizeTrxID transaction.trxid)) } := by
  unfold ruleTrxIdOk at h1
  unfold verifyPayment
  dsimp only
  rw [if_pos h1]

theorem vp_amount_mismatch (tracking : Tracking) (transaction : Transaction)
    (st : DBState) (h1 : ruleTrxIdOk tracking transaction)
    (h2 : ¬ ruleAmountOk tracking transaction) :
    verifyPayment tracking transaction st =
      .ok { success := false, status := .failed,
            failure_reason := some (.amountMismatch
              tracking.payment_amount_cents transaction.amount_cents) } := by
  unfold ruleTrxIdOk at h1
  unfold ruleAmountOk at h2
  unfold verifyPayment
  dsimp only
  rw [if_neg (not_not_intro h1), if_pos h2]

theorem vp_receiver_mismatch (tracking : Tracking) (transaction : Transaction)
    (st : DBState) (l : List Nat) (hjson : tracking.offered_receivers = some l)
    (h1 : ruleTrxIdOk tracking transaction)
    (h2 : ruleAmountOk tracking transaction)
    (h3 : l.contains transaction.receiver_phone = false) :
    verifyPayment tracking transaction st =
      .ok { success := false, status := .failed,
            failure_reason := some (.receiverNotOffered
              transaction.receiver_phone l) } := by
  unfold ruleTrxIdOk at h1
  unfold ruleAmountOk at h2
  unfold verifyPayment
  dsimp only
  rw [if_neg (not_not_intro h1), if_neg (not_not_intro h2), hjson]
  dsimp only
  rw [if_pos (by simpa using h3)]

theorem vp_window_mismatch (tracking : Tracking) (transaction : Transaction)
    (st : DBState) (l : List Nat) (hjson : tracking.offered_receivers = some l)
    (h1 : ruleTrxIdOk tracking transaction)
    (h2 : ruleAmountOk tracking transaction)
    (h3 : l.contains transaction.receiver_phone = true)
    (h4 : timeWindowFails tracking.created_at tracking.expires_at
      transaction.received_at = true) :
    verifyPayment tracking transaction st =
      .ok { success := false, status := .failed,
            failure_reason := some (.outsideTimeWindow transaction.received_at
              (tracking.created_at - 60 * 60 * 1000)
              (tracking.expires_at + 15 * 60 * 1000)) } := by
  unfold ruleTrxIdOk at h1
  unfold ruleAmountOk at h2
  unfold verifyPayment
  dsimp only
  rw [if_neg (not_not_intro h1), if_neg (not_not_intro h2), hjson]
  dsimp only
  rw [if_neg (by simpa using h3), if_pos (by simp [h4])]

theorem vp_duplicate (tracking : Tracking) (transaction : Transaction)
    (st : DBState) (l : List Nat) (other : Tracking)
    (hjson : tracking.offered_receivers = some l)
    (h1 : ruleTrxIdOk tracking transaction)
    (h2 : ruleAmountOk tracking transaction)
    (h3 : l.contains transaction.receiver_phone = true)
    (h4 : timeWindowFails tracking.created_at tracking.expires_at
      transaction.received_at = false)
    (hex : ruleExclusivityHit st tracking transaction = some other) :
    verifyPayment tracking transaction st =
      .ok { success := false, status := .failed,
            failure_reason := some (.duplicateTrxId other.tracking_id) } := by
  unfold ruleTrxIdOk at h1
  unfold ruleAmountOk at h2
  unfold ruleExclusivityHit at hex
  unfold verifyPayment
  dsimp only
  rw [if_neg (not_not_intro h1), if_neg (not_not_intro h2), hjson]
  dsimp only
  rw [if_neg (by simpa using h3), if_neg (by simp [h4]), hex]

theorem vp_verified (tracking : Tracking) (transaction : Transaction)
    (st : DBState) (l : List Nat)
    (hjson : tracking.offered_receivers = some l)
    (h1 : ruleTrxIdOk tracking transaction)
    (h2 : ruleAmountOk tracking transaction)
    (h3 : l.contains transaction.receiver_phone = true)
    (h4 : timeWindowFails tracking.created_at tracking.expires_at
      transaction.received_at = false)
    (hex : ruleExclusivityHit st tracking transaction = none) :
    verifyPayment tracking transaction st =
      .ok { success := true, status := .verified,
            matched_transaction_id := some transaction.id } := by
  unfold ruleTrxIdOk at h1
  unfold ruleAmountOk at h2
  unfold ruleExclusivityHit at hex
  unfold verifyPayment
  dsimp only
  rw [if_neg (not_not_intro h1), if_neg (not_not_intro h2), hjson]
  dsimp only
  rw [if_neg (by simpa using h3), if_neg (by simp [h4]), hex]

/-- C5: `verifyPayment` applies the five rules in the fixed order —
reference match, amount match, receiver membership, time window,
exclusivity — short-circuiting on the first failing rule (the reported
`failure_reason` is that of the first failing rule), and returns the
`verified` verdict if and only if all five rules pass. -/
theorem c5_rule_order (tracking : Tracking) (transaction : Transaction)
    (st : DBState) (l : List Nat)
    (hjson : tracking.offered_receivers = some l) :
    ∃ r, verifyPayment tracking transaction st = .ok r ∧
      (r.status = .verified ↔
        (ruleTrxIdOk tracking transaction ∧
         ruleAmountOk tracking transaction ∧
         l.contains transaction.receiver_phone = true ∧
         timeWindowFails tracking.created_at tracking.expires_at
           transaction.received_at = false ∧
         ruleExclusivityHit st tracking transaction = none)) ∧
      (r.success = true ↔ r.status = .verified) ∧
      (¬ ruleTrxIdOk tracking transaction →
        r.failure_reason = some (.trxIdMismatch
          (normalizeTrxID (tracking.user_entered_trxid.getD []))
          (normalizeTrxID transaction.trxid))) ∧
      (ruleTrxIdOk tracking transaction →
        ¬ ruleAmountOk tracking transaction →
        r.failure_reason = some (.amountMismatch
          tracking.payment_amount_cents transaction.amount_cents)) ∧
      (ruleTrxIdOk tracking transaction → ruleAmountOk tracking transaction →
        l.contains transaction.receiver_phone = false →
        r.failure_reason = some (.receiverNotOffered
          transaction.receiver_phone l)) ∧
      (ruleTrxIdOk tracking transaction → ruleAmountOk tracking transaction →
        l.contains transaction.receiver_phone = true →
        timeWindowFails tracking.created_at tracking.expires_at
          transaction.received_at = true →
        r.failure_reason = some (.outsideTimeWindow transaction.received_at
          (tracking.created_at - 60 * 60 * 1000)
          (tracking.expires_at + 15 * 60 * 1000))) ∧
      (∀ other : Tracking,
        ruleTrxIdOk tracking transaction → ruleAmountOk tracking transaction →
        l.contains transaction.receiver_phone = true →
        timeWindowFails tracking.created_at tracking.expires_at
          transaction.received_at = false →
        ruleExclusivityHit st tracking transaction = some other →
        r.failure_reason = some (.duplicateTrxId other.tracking_id)) := by
  by_cases h1 : ruleTrxIdOk tracking transaction
  · by_cases h2 : ruleAmountOk tracking transaction
    · cases h3 : l.contains transaction.receiver_phone with
      | false =>
        refine ⟨_, vp_receiver_mismatch tracking transaction st l hjson
          h1 h2 h3, ?_⟩
        simp [h1, h2, h3]
      | true =>
        cases h4 : timeWindowFails tracking.created_at tracking.expires_at
            transaction.received_at with
        | true =>
          refine ⟨_, vp_window_mismatch tracking transaction st l hjson
            h1 h2 h3 h4, ?_⟩
          simp [h1, h2, h3, h4]
        | false =>
          cases hex : ruleExclusivityHit st tracking transaction with
          | some other =>
            refine ⟨_, vp_duplicate tracking transaction st l other hjson
              h1 h2 h3 h4 hex, ?_⟩
            simp [h1, h2, h3, h4, hex]
          | none =>
            refine ⟨_, vp_verified tracking transaction st l hjson
              h1 h2 h3 h4 hex, ?_⟩
            simp [h1, h2, h3, h4, hex]
    · refine ⟨_, vp_amount_mismatch tracking transaction st h1 h2, ?_⟩
      simp [h1, h2]
  · refine ⟨_, vp_trxid_mismatch tracking transaction st h1, ?_⟩
    simp [h1]

/-- C5 witness: the rule-order theorem applied to the concrete
session/receipt pair, where all five rules pass and the verdict is
`verified`. -/
theorem c5_rule_order_witness :
    session1.offered_receivers = some [17] ∧
    ∃ r, verifyPayment session1 receipt1 dupState = .ok r ∧
      r.status = .verified := by
  refine ⟨by decide, ?_⟩
  obtain ⟨r, hr, hiff, _⟩ :=
    c5_rule_order session1 receipt1 dupState [17] (by decide)
  refine ⟨r, hr, hiff.mpr
    ⟨?_, ?_, by decide, by decide, by decide⟩⟩
  · unfold ruleTrxIdOk; decide
  · unfold ruleAmountOk; decide

/-- C6: the time-window rule is inclusive at both ends — for any session
bounds with `created_at ≤ expires_at`, a receipt at exactly
`created_at − 1 h` or exactly `expires_at + 15 min` passes the check used
by `verifyPayment` rule 4, while one second earlier (resp. later) fails. -/
theorem c6_time_window_boundaries (created expires : Int)
    (h : created ≤ expires) :
    timeWindowFails created expires (created - 60 * 60 * 1000) = false ∧
    timeWindowFails created expires
      (created - 60 * 60 * 1000 - 1000) = true ∧
    timeWindowFails created expires (expires + 15 * 60 * 1000) = false ∧
    timeWindowFails created expires
      (expires + 15 * 60 * 1000 + 1000) = true := by
  unfold timeWindowFails
  refine ⟨?_, ?_, ?_, ?_⟩ <;> simp <;> omega

/-- C6 witness: the boundary theorem at the concrete bounds of `session1`
(created 0, expiring at +1 h). -/
theorem c6_time_window_boundaries_witness :
    (0 : Int) ≤ 3600000 ∧
    (timeWindowFails 0 3600000 (0 - 60 * 60 * 1000) = false ∧
     timeWindowFails 0 3600000 (0 - 60 * 60 * 1000 - 1000) = true ∧
     timeWindowFails 0 3600000 (3600000 + 15 * 60 * 1000) = false ∧
     timeWindowFails 0 3600000 (3600000 + 15 * 60 * 1000 + 1000) = true) :=
  ⟨by decide, c6_time_window_boundaries 0 3600000 (by decide)⟩

/-- C7 counterexample: a session that is already `verified` while no
receipt with its declared reference exists in the store (the store's
transactions list is empty).  `attemptVerification` early-returns the
stored `verified` result — not an inconclusive/pending one — so the claim's
"returns an inconclusive/pending result" fails for this (already-resolved)
session; the no-write part still holds. -/
theorem c7_verified_session_counterexample :
    trackingGetByID verifiedState 1 = some verifiedSession ∧
    verifiedSession.user_entered_trxid = some [65, 66] ∧
    verifiedState.transactions = [] ∧
    (attemptVerification verifiedState 1 5).1 =
      .ok { success := true, status := .verified,
            matched_transaction_id := some 100 } ∧
    VStatus.verified ≠ VStatus.pending := by
  decide

/-- C7 amended: for a session with a non-null declared reference such that
no stored receipt carries the normalized reference, `attemptVerification`
writes nothing — the store (hence the session's status,
`matched_transaction_id`, and notes) is exactly unchanged, so in particular
no `failed` status is ever written — and, provided the session is not
already `verified`, it returns a pending (inconclusive) result. -/
theorem c7_no_receipt_pending_amended (st : DBState) (tid : Nat)
    (tr : Tracking) (s : List Nat) (now : Int)
    (h : trackingGetByID st tid = some tr)
    (htrx : tr.user_entered_trxid = some s)
    (hnone : ∀ tx ∈ st.transactions, tx.trxid ≠ normalizeTrxID s) :
    (attemptVerification st tid now).2 = st ∧
    (tr.status ≠ .verified →
      ∃ r, (attemptVerification st tid now).1 = .ok r ∧
        r.status = .pending ∧ r.success = false) := by
  have hfind : transactionsGetByTrxID st (normalizeTrxID s) = none := by
    unfold transactionsGetByTrxID
    rw [List.find?_eq_none]
    intro tx htx
    simp [hnone tx htx]
  unfold attemptVerification
  simp only [h]
  by_cases ht : optTruthy tr.user_entered_trxid = false
  · rw [if_pos ht]
    exact ⟨rfl, fun _ => ⟨_, rfl, rfl, rfl⟩⟩
  · rw [if_neg ht]
    by_cases hv : tr.status = .verified
    · rw [if_pos hv]
      exact ⟨rfl, fun hc => absurd hv hc⟩
    · rw [if_neg hv]
      rw [htrx, Option.getD_some, hfind]
      exact ⟨rfl, fun _ => ⟨_, rfl, rfl, rfl⟩⟩

/-- C7 witness: the amended theorem at the concrete store holding one
submitted session and no receipts. -/
theorem c7_no_receipt_pending_amended_witness :
    trackingGetByID noReceiptState 1 = some session1 ∧
    session1.user_entered_trxid = some [65, 66] ∧
    session1.status ≠ .verified ∧
    (attemptVerification noReceiptState 1 9).2 = noReceiptState ∧
    (∃ r, (attemptVerification noReceiptState 1 9).1 = .ok r ∧
      r.status = .pending ∧ r.success = false) := by
  have hmain := c7_no_receipt_pending_amended noReceiptState 1 session1
    [65, 66] 9 (by decide) (by decide)
    (fun tx htx => by simp [noReceiptState] at htx)
  exact ⟨by decide, by decide, by decide, hmain.1, hmain.2 (by decide)⟩

/-- C8: receipt ingestion is idempotent on the transaction-reference.  For a
reference not yet stored, the first `transactions.create` returns
`isNew = true` and appends exactly one row; a second call with identical
fields returns `isNew = false` and the very same stored record (same id,
same field values), and leaves the store unchanged. -/
theorem c8_idempotent_ingestion (st : DBState) (data : TransactionCreateData)
    (id1 id2 : Nat) (now1 now2 : Int)
    (h : transactionsGetByTrxID st data.trxid = none) :
    (transactionsCreate st data id1 now1).1.2 = true ∧
    (transactionsCreate (transactionsCreate st data id1 now1).2 data id2
        now2).1.2 = false ∧
    (transactionsCreate (transactionsCreate st data id1 now1).2 data id2
        now2).1.1 = (transactionsCreate st data id1 now1).1.1 ∧
    (transactionsCreate (transactionsCreate st data id1 now1).2 data id2
        now2).2 = (transactionsCreate st data id1 now1).2 ∧
    ((transactionsCreate st data id1 now1).2).transactions =
      st.transactions ++ [(transactionsCreate st data id1 now1).1.1] ∧
    (transactionsCreate st data id1 now1).1.1.trxid = data.trxid ∧
    (transactionsCreate st data id1 now1).1.1.id = id1 := by
  have hfind2 : transactionsGetByTrxID
      { st with transactions := st.transactions ++
          [{ id := id1, trxid := data.trxid, amount_cents := data.amount_cents,
             receiver_phone := data.receiver_phone,
             sender_phone := some data.sender_phone,
             received_at := data.received_at, created_at := now1 }] }
      data.trxid = some
        { id := id1, trxid := data.trxid, amount_cents := data.amount_cents,
          receiver_phone := data.receiver_phone,
          sender_phone := some data.sender_phone,
          received_at := data.received_at, created_at := now1 } := by
    unfold transactionsGetByTrxID at h ⊢
    rw [List.find?_append, h]
    simp
  unfold transactionsCreate
  rw [h]
  dsimp only
  rw [hfind2]
  exact ⟨rfl, rfl, rfl, rfl, rfl, rfl, rfl⟩

/-- C8 witness: the idempotency theorem on the empty store with the sample
ingestion data. -/
theorem c8_idempotent_ingestion_witness :
    transactionsGetByTrxID emptyState sampleCreateData.trxid = none ∧
    (transactionsCreate emptyState sampleCreateData 100 1).1.2 = true ∧
    (transactionsCreate
      (transactionsCreate emptyState sampleCreateData 100 1).2
      sampleCreateData 200 2).1.2 = false ∧
    (transactionsCreate
      (transactionsCreate emptyState sampleCreateData 100 1).2
      sampleCreateData 200 2).1.1 =
      (transactionsCreate emptyState sampleCreateData 100 1).1.1 ∧
    (transactionsCreate
      (transactionsCreate emptyState sampleCreateData 100 1).2
      sampleCreateData 200 2).2 =
      (transactionsCreate emptyState sampleCreateData 100 1).2 :=
  ⟨by decide,
    (c8_idempotent_ingestion emptyState sampleCreateData 100 200 1 2
      (by decide)).1,
    (c8_idempotent_ingestion emptyState sampleCreateData 100 200 1 2
      (by decide)).2.1,
    (c8_idempotent_ingestion emptyState sampleCreateData 100 200 1 2
      (by decide)).2.2.1,
    (c8_idempotent_ingestion emptyState sampleCreateData 100 200 1 2
      (by decide)).2.2.2.1⟩

theorem retryLoop_counts (now : Int) :
    ∀ (sessions : List Tracking) (st : DBState) (c : SweepCounts),
      ((retryLoop now st c sessions).1).verified +
        ((retryLoop now st c sessions).1).failed +
        ((retryLoop now st c sessions).1).stillPending =
        c.verified + c.failed + c.stillPending + sessions.length := by
  intro sessions
  induction sessions with
  | nil => intro st c; simp [retryLoop]
  | cons s rest ih =>
    intro st c
    unfold retryLoop
    split
    · split
      · rw [ih]; simp [List.length_cons]; omega
      · split <;> (rw [ih]; simp [List.length_cons]; omega)
    · rw [ih]; simp [List.length_cons]; omega

theorem retryLoop_error_step (now : Int) (st : DBState) (c : SweepCounts)
    (s : Tracking) (rest : List Tracking)
    (h : (attemptVerification st s.tracking_id now).1 = .error ()) :
    retryLoop now st c (s :: rest) =
      retryLoop now (attemptVerification st s.tracking_id now).2
        { c with failed := c.failed + 1 } rest := by
  cases hav : attemptVerification st s.tracking_id now with
  | mk e1 st2 =>
    rw [hav] at h
    dsimp only at h
    subst h
    simp only [retryLoop, hav]

/-- C9: the sweep's retry phase isolates per-session errors.  Every session
in the batch is accounted for in the verified/failed/still-pending tallies
(their sum equals the batch length, for every store, so no input aborts the
loop); when `attemptVerification` throws on the head session, the loop
counts it as failed and continues with the remaining sessions from the
state the failed call returned; and the full sweep's report always tallies
`verified + failed + still_pending = total_processed`. -/
theorem c9_sweep_error_isolation :
    (∀ (now : Int) (sessions : List Tracking) (st : DBState)
      (c : SweepCounts),
      ((retryLoop now st c sessions).1).verified +
        ((retryLoop now st c sessions).1).failed +
        ((retryLoop now st c sessions).1).stillPending =
        c.verified + c.failed + c.stillPending + sessions.length) ∧
    (∀ (now : Int) (st : DBState) (c : SweepCounts) (s : Tracking)
      (rest : List Tracking),
      (attemptVerification st s.tracking_id now).1 = .error () →
      retryLoop now st c (s :: rest) =
        retryLoop now (attemptVerification st s.tracking_id now).2
          { c with failed := c.failed + 1 } rest) ∧
    (∀ (st : DBState) (now : Int),
      (scheduledHandler st now).1.verified +
        (scheduledHandler st now).1.failed +
        (scheduledHandler st now).1.still_pending =
        (scheduledHandler st now).1.total_processed) := by
  refine ⟨fun now sessions st c => retryLoop_counts now sessions st c,
    fun now st c s rest h => retryLoop_error_step now st c s rest h,
    fun st now => ?_⟩
  unfold scheduledHandler
  dsimp only
  cases hr : retryLoop now
      (if (trackingFindExpired st now).isEmpty then st
       else trackingExpireSessions st
         ((trackingFindExpired st now).map (·.tracking_id)) now)
      ⟨0, 0, 0⟩
      (trackingFindPendingVerification
        (if (trackingFindExpired st now).isEmpty then st
         else trackingExpireSessions st
           ((trackingFindExpired st now).map (·.tracking_id)) now)) with
  | mk counts st2 =>
    have hc := retryLoop_counts now
      (trackingFindPendingVerification
        (if (trackingFindExpired st now).isEmpty then st
         else trackingExpireSessions st
           ((trackingFindExpired st now).map (·.tracking_id)) now))
      (if (trackingFindExpired st now).isEmpty then st
       else trackingExpireSessions st
         ((trackingFindExpired st now).map (·.tracking_id)) now)
      ⟨0, 0, 0⟩
    rw [hr] at hc
    simp only [hr]
    simpa using hc

/-- C9 witness: in `badJsonState` the head session's `offered_receivers`
is malformed, so `attemptVerification` throws on it; the error-isolation
theorem applied there shows the loop books one failure and continues with
`session2`, and the tally part applied to the concrete batch sums to its
length. -/
theorem c9_sweep_error_isolation_witness :
    (attemptVerification badJsonState badJsonSession.tracking_id 3).1 =
      .error () ∧
    retryLoop 3 badJsonState ⟨0, 0, 0⟩ [badJsonSession, session2] =
      retryLoop 3
        (attemptVerification badJsonState badJsonSession.tracking_id 3).2
        { verified := 0, failed := 0 + 1, stillPending := 0 } [session2] ∧
    ((retryLoop 3 badJsonState ⟨0, 0, 0⟩
        [badJsonSession, session2]).1).verified +
      ((retryLoop 3 badJsonState ⟨0, 0, 0⟩
        [badJsonSession, session2]).1).failed +
      ((retryLoop 3 badJsonState ⟨0, 0, 0⟩
        [badJsonSession, session2]).1).stillPending = 0 + 0 + 0 + 2 :=
  ⟨by decide,
    c9_sweep_error_isolation.2.1 3 badJsonState ⟨0, 0, 0⟩ badJsonSession
      [session2] (by decide),
    c9_sweep_error_isolation.1 3 [badJsonSession, session2] badJsonState
      ⟨0, 0, 0⟩⟩

theorem jsToUpperCode_idem (n : Nat) :
    jsToUpperCode (jsToUpperCode n) = jsToUpperCode n := by
  unfold jsToUpperCode
  by_cases h : 97 ≤ n ∧ n ≤ 122
  · rw [if_pos h, if_neg (by omega)]
  · rw [if_neg h, if_neg h]

theorem jsIsWhitespaceCode_toUpper (n : Nat) :
    jsIsWhitespaceCode (jsToUpperCode n) = jsIsWhitespaceCode n := by
  unfold jsToUpperCode
  by_cases h : 97 ≤ n ∧ n ≤ 122
  · rw [if_pos h]
    have h1 : jsIsWhitespaceCode (n - 32) = false := by
      unfold jsIsWhitespaceCode; simp; omega
    have h2 : jsIsWhitespaceCode n = false := by
      unfold jsIsWhitespaceCode; simp; omega
    rw [h1, h2]
  · rw [if_neg h]

theorem dropWhile_map_pres {α : Type} (f : α → α) (p : α → Bool)
    (hp : ∀ a, p (f a) = p a) :
    ∀ l : List α, (l.map f).dropWhile p = (l.dropWhile p).map f := by
  intro l
  induction l with
  | nil => rfl
  | cons a t ih =>
    simp only [List.map_cons, List.dropWhile_cons, hp]
    cases h : p a with
    | true => simpa [h] using ih
    | false => simp [h]

theorem dropWhile_head_false {α : Type} (p : α → Bool) :
    ∀ (l : List α) (a : α), (l.dropWhile p).head? = some a → p a = false := by
  intro l
  induction l with
  | nil => intro a h; simp at h
  | cons b t ih =>
    intro a h
    rw [List.dropWhile_cons] at h
    split at h
    · exact ih a h
    · next hb =>
      simp only [List.head?_cons, Option.some.injEq] at h
      subst h
      simpa using hb

theorem dropWhile_eq_self_of_head {α : Type} (p : α → Bool) (l : List α)
    (h : ∀ a, l.head? = some a → p a = false) : l.dropWhile p = l := by
  cases l with
  | nil => rfl
  | cons b t =>
    rw [List.dropWhile_cons, if_neg]
    simp [h b rfl]

theorem dropWhile_getLast? {α : Type} (p : α → Bool) :
    ∀ l : List α, l.dropWhile p = [] ∨
      (l.dropWhile p).getLast? = l.getLast? := by
  intro l
  induction l with
  | nil => left; rfl
  | cons b t ih =>
    rw [List.dropWhile_cons]
    split
    · rcases ih with h | h
      · left; exact h
      · cases ht : t with
        | nil => left; rfl
        | cons c u =>
          right
          rw [List.getLast?_cons_cons]
          exact ht ▸ h
    · right; rfl

theorem jsTrim_getLast_false (l : List Nat) (a : Nat)
    (h : (jsTrim l).getLast? = some a) : jsIsWhitespaceCode a = false := by
  unfold jsTrim at h
  rw [List.getLast?_reverse] at h
  exact dropWhile_head_false jsIsWhitespaceCode _ a h

theorem jsTrim_head_false (l : List Nat) (a : Nat)
    (h : (jsTrim l).head? = some a) : jsIsWhitespaceCode a = false := by
  unfold jsTrim at h
  rw [List.head?_reverse] at h
  rcases dropWhile_getLast? jsIsWhitespaceCode
      ((l.dropWhile jsIsWhitespaceCode).reverse) with he | he
  · rw [he] at h; simp at h
  · rw [he, List.getLast?_reverse] at h
    exact dropWhile_head_false jsIsWhitespaceCode _ a h

theorem jsTrim_of_trimmed (l : List Nat)
    (hh : ∀ a, l.head? = some a → jsIsWhitespaceCode a = false)
    (hl : ∀ a, l.getLast? = some a → jsIsWhitespaceCode a = false) :
    jsTrim l = l := by
  unfold jsTrim
  rw [dropWhile_eq_self_of_head jsIsWhitespaceCode l hh]
  rw [dropWhile_eq_self_of_head jsIsWhitespaceCode l.reverse
    (fun a ha => hl a (by rwa [List.head?_reverse] at ha))]
  exact List.reverse_reverse l

theorem jsTrim_idem (l : List Nat) : jsTrim (jsTrim l) = jsTrim l :=
  jsTrim_of_trimmed (jsTrim l) (jsTrim_head_false l) (jsTrim_getLast_false l)

theorem jsTrim_map_toUpper (l : List Nat) :
    jsTrim (l.map jsToUpperCode) = (jsTrim l).map jsToUpperCode := by
  unfold jsTrim
  rw [dropWhile_map_pres jsToUpperCode jsIsWhitespaceCode
      jsIsWhitespaceCode_toUpper l,
    ← List.map_reverse,
    dropWhile_map_pres jsToUpperCode jsIsWhitespaceCode
      jsIsWhitespaceCode_toUpper,
    ← List.map_reverse]

theorem map_toUpper_idem (l : List Nat) :
    (l.map jsToUpperCode).map jsToUpperCode = l.map jsToUpperCode := by
  rw [List.map_map]
  exact List.map_congr_left
    (fun a _ => by simp [Function.comp, jsToUpperCode_idem])

/-- C10: `normalizeTrxID` is idempotent — re-normalizing a normalized
reference is the identity — so `verifyPayment`'s re-normalization of a
stored reference that was already written in normalized form never changes
the value compared in rule 1. -/
theorem c10_normalize_idempotent :
    (∀ s : List Nat, normalizeTrxID (normalizeTrxID s) = normalizeTrxID s) ∧
    (∀ (tx : Transaction) (s : List Nat), tx.trxid = normalizeTrxID s →
      normalizeTrxID tx.trxid = tx.trxid) := by
  have hmain : ∀ s : List Nat,
      normalizeTrxID (normalizeTrxID s) = normalizeTrxID s := by
    intro s
    unfold normalizeTrxID
    rw [jsTrim_map_toUpper, jsTrim_idem, map_toUpper_idem]
  exact ⟨hmain, fun tx s h => by rw [h]; exact hmain s⟩

/-- C10 witness: idempotence evaluated on the concrete raw reference
`" ab "` and on `receipt1`, whose stored reference is the normalization of
`"ab"`. -/
theorem c10_normalize_idempotent_witness :
    normalizeTrxID (normalizeTrxID [32, 97, 98, 32]) =
      normalizeTrxID [32, 97, 98, 32] ∧
    receipt1.trxid = normalizeTrxID [97, 98] ∧
    normalizeTrxID receipt1.trxid = receipt1.trxid :=
  ⟨c10_normalize_idempotent.1 [32, 97, 98, 32],
    by decide,
    c10_normalize_idempotent.2 receipt1 [97, 98] (by decide)⟩
